import Mathlib

/-!
Shallow embedding of `src/main.py` (class `AIPaperGrader`): a paper grader
combining objective text metrics with a rubric-driven model evaluation.

Conventions of the embedding:
- A Python dict with a fixed schema is a structure whose fields are
  `Option`-valued: `none` models an absent key, so `d.get(k, v)` becomes
  `Option.getD` and direct indexing `d[k]` becomes a match that raises
  `KeyError` on `none`.
- JSON numbers (scores) are embedded as `Int`; the readability float is an
  `Int` stand-in, since no claim depends on its numeric value, only on its
  presence and formatting behavior.
- External collaborators are explicit parameters: the grammar tool is an
  `Option (List Char → Nat)` (text to number of matches, `none` when
  initialization failed), the readability library a `List Char → Int`, and
  the language-model transport a `Transport` outcome.
- Paper text is a `List Char`; `print_report` returns the printed lines in
  `Except PyError`, where an `error` value models a raised exception.
-/

namespace PaperGrade

/-- Python runtime errors that the embedded functions can raise. -/
inductive PyError where
  | keyError (key : String)
  | typeError
  deriving Repr, DecidableEq

/-- One entry of the criteria breakdown returned by the model: a JSON
object whose keys may be absent. Fields `criterion`, `score`, `max_score`,
`feedback` as described at lines 105-109 of the source. -/
structure CriterionEntry where
  criterion : Option String
  score : Option Int
  max_score : Option Int
  feedback : Option String
  deriving Repr, DecidableEq

/-- One criterion of the grading rubric (lines 270-289 of the source): a
dict with keys `criterion`, `max_score`, `description`. -/
structure RubricCriterion where
  criterion : Option String
  max_score : Option Int
  description : Option String
  deriving Repr, DecidableEq

/-- A rubric: a dict whose key `criteria` (possibly absent, the source
reads it with `rubric.get` and default `[]` at line 206) holds the ordered
list of criteria. -/
structure Rubric where
  criteria : Option (List RubricCriterion)
  deriving Repr, DecidableEq

/-- The dict built by `_check_objective_metrics` (lines 65-69). The fields
are `Option`-valued because `print_report` reads them back through
`metrics.get` with no default, which yields `None` for an absent key. -/
structure Metrics where
  word_count : Option Nat
  readability_score_flesch : Option Int
  grammar_and_spelling_errors : Option Nat
  deriving Repr, DecidableEq

/-- The dict returned by `_evaluate_with_llm`: the parsed model output (or
the degraded fallback), with keys `summary_feedback` and
`criteria_breakdown`, either possibly absent in arbitrary model output. -/
structure Evaluation where
  summary_feedback : Option String
  criteria_breakdown : Option (List CriterionEntry)
  deriving Repr, DecidableEq

/-- The final report dict built by `grade_paper` (lines 211-221). The
outer `Option` on each field models key presence; for `summary_feedback`
and `criteria_breakdown` the inner `Option` models a Python `None` value,
because `grade_paper` stores `llm_results.get(...)` with no default. -/
structure GradeReport where
  overall_score : Option Int
  max_possible_score : Option Int
  summary_feedback : Option (Option String)
  criteria_breakdown : Option (Option (List CriterionEntry))
  objective_metrics : Option Metrics
  deriving Repr, DecidableEq

/-- Whitespace in the sense of Python `str.split()` with no arguments. -/
def isWs (c : Char) : Bool :=
  c == ' ' || c == '\t' || c == '\n' || c == '\x0d' || c == '\x0b' || c == '\x0c'

/-- Accumulator pass behind Python `text.split()` with no arguments: split
on runs of whitespace, never yielding empty tokens. `acc` holds the
characters of the token currently being read, in reverse. -/
def pySplitGo : List Char → List Char → List (List Char)
  | [], acc => if acc.isEmpty then [] else [acc.reverse]
  | c :: cs, acc =>
    if isWs c then
      if acc.isEmpty then pySplitGo cs [] else acc.reverse :: pySplitGo cs []
    else pySplitGo cs (c :: acc)

/-- Python `text.split()` with no arguments (line 48-51 of the source
computes `len` of this list). -/
def pySplit (text : List Char) : List (List Char) :=
  pySplitGo text []

/-- Spec-side token counter, written independently of `pySplit`: the
number of whitespace-delimited tokens, counted as the number of maximal
runs of non-whitespace characters. `inTok` records whether the previous
character belonged to a token. -/
def countTokensFrom : Bool → List Char → Nat
  | _, [] => 0
  | inTok, c :: cs =>
    if isWs c then countTokensFrom false cs
    else (if inTok then 0 else 1) + countTokensFrom true cs

/-- Spec-side: the number of whitespace-delimited tokens of a text. -/
def countTokens (text : List Char) : Nat :=
  countTokensFrom false text

/-- Lines 30-39 of the source: `__init__` constructs the grammar tool in a
try/except; on failure it logs the condition and stores `None` instead of
re-raising. `outcome` is the behavior of the external constructor
`LanguageTool("en-US")`: `ok tool` when it succeeds, `error msg` when it
raises. The embedded function is total: no exception escapes. -/
def init_lang_tool (outcome : Except String (List Char → Nat)) :
    Option (List Char → Nat) :=
  match outcome with
  | .ok tool => some tool
  | .error _ => none

/-- Lines 41-69 of the source, `_check_objective_metrics`: word count from
`text.split()`, readability from the external library, and the grammar
error count, which stays 0 when `lang_tool` is `None`. -/
def check_objective_metrics (lang_tool : Option (List Char → Nat))
    (flesch : List Char → Int) (paper_text : List Char) : Metrics :=
  let word_count := (pySplit paper_text).length
  let readability_score := flesch paper_text
  let grammar_errors : Nat :=
    match lang_tool with
    | some tool => tool paper_text
    | none => 0
  { word_count := some word_count
    readability_score_flesch := some readability_score
    grammar_and_spelling_errors := some grammar_errors }

/-- Outcome of the external transport call `agent.generate_response`
(line 115 of the source): a response body, or a raised exception. -/
inductive Transport where
  | ok (body : String)
  | err (msg : String)
  deriving Repr, DecidableEq

/-- The degraded evaluation built by the except handler at lines 174-177
of the source. -/
def degradedEvaluation : Evaluation :=
  { summary_feedback := some "Error: Could not get evaluation from the AI model."
    criteria_breakdown := some [] }

/-- Lines 71-177 of the source, `_evaluate_with_llm`. The try block first
calls `self.agent.generate_response(...)` (line 115); if that raises, the
except handler at line 170 returns the degraded dict. If it succeeds, the
next statement (line 145) evaluates `self.client.chat.completions.create`,
but `__init__` (lines 17-39) sets only `self.agent` and `self.lang_tool`
and never a `client` attribute, so this attribute access raises
`AttributeError` on every execution; the same handler catches it and
returns the degraded dict. The `json.loads` at line 164 is therefore
unreachable, and the function returns the degraded dict on every call. -/
def evaluate_with_llm (transport : Transport) (assignment : String)
    (rubric : Rubric) (student_paper : List Char) : Evaluation :=
  match transport with
  | .err _ => degradedEvaluation
  | .ok _ => degradedEvaluation

/-- Spec-side, section 4.3: the sum of `max_score` over all rubric
criteria (a criterion missing the key contributing 0, as `item.get` with
default 0 does at line 206). -/
def rubricMaxSum (rubric : Rubric) : Int :=
  ((rubric.criteria.getD []).map (fun item => item.max_score.getD 0)).sum

/-- Spec-side, section 4.3: the sum of `score` over breakdown entries, an
entry missing the key contributing 0. -/
def breakdownScoreSum (entries : List CriterionEntry) : Int :=
  (entries.map (fun item => item.score.getD 0)).sum

/-- Lines 204-221 of the source: the aggregation step of `grade_paper`
over the already-computed metrics dict and model output dict. -/
def compile_report (objective_results : Metrics) (rubric : Rubric)
    (llm_results : Evaluation) : GradeReport :=
  let total_score :=
    ((llm_results.criteria_breakdown.getD []).map
      (fun item => item.score.getD 0)).sum
  let max_total_score :=
    ((rubric.criteria.getD []).map (fun item => item.max_score.getD 0)).sum
  { overall_score := some total_score
    max_possible_score := some max_total_score
    summary_feedback := some llm_results.summary_feedback
    criteria_breakdown := some llm_results.criteria_breakdown
    objective_metrics := some objective_results }

/-- Lines 179-223 of the source, `grade_paper`: compute the metrics, run
the model evaluation, and compile the report. -/
def grade_paper (lang_tool : Option (List Char → Nat))
    (flesch : List Char → Int) (transport : Transport)
    (assignment : String) (rubric : Rubric)
    (student_paper : List Char) : GradeReport :=
  compile_report
    (check_objective_metrics lang_tool flesch student_paper)
    rubric
    (evaluate_with_llm transport assignment rubric student_paper)

/-- Python `str` of a possibly-absent numeric value: an absent key read
back via `.get` prints as `None`. -/
def pyShowOptNat (v : Option Nat) : String :=
  match v with
  | none => "None"
  | some n => toString n

/-- Lines 244-246 of the source: the body of the breakdown loop. Each of
the four keys is read by direct indexing, in source order, so the first
absent key raises `KeyError` with that key. -/
def renderItem (item : CriterionEntry) : Except PyError (List String) :=
  match item.criterion with
  | none => .error (.keyError "criterion")
  | some c =>
    match item.score with
    | none => .error (.keyError "score")
    | some s =>
      match item.max_score with
      | none => .error (.keyError "max_score")
      | some m =>
        match item.feedback with
        | none => .error (.keyError "feedback")
        | some f =>
          .ok [s!"[{c}]", s!"  Score: {s} / {m}", s!"  Feedback: {f}"]

/-- Lines 243-246 of the source: the loop over the breakdown entries; the
first failing entry aborts the print with its exception. -/
def renderItems : List CriterionEntry → Except PyError (List String)
  | [] => .ok []
  | item :: rest =>
    match renderItem item with
    | .error e => .error e
    | .ok itemLines =>
      match renderItems rest with
      | .error e => .error e
      | .ok more => .ok (itemLines ++ more)

/-- Line 243 of the source: `grade_report.get("criteria_breakdown", [])`
followed by the `for` loop header. An absent key defaults to the empty
list; a present key whose value is `None` makes the `for` raise
`TypeError` (iterating `None`). -/
def breakdownItems (grade_report : GradeReport) :
    Except PyError (List CriterionEntry) :=
  match grade_report.criteria_breakdown with
  | none => .ok []
  | some none => .error .typeError
  | some (some items) => .ok items

/-- Lines 250-254 of the source: the objective-metrics block. Reading the
keys with `.get` yields `None` for an absent key, which prints fine for
word count and error count, but formatting `None` with a two-decimal float
format on the readability line raises `TypeError`. -/
def renderMetrics (metrics : Metrics) : Except PyError (List String) :=
  match metrics.readability_score_flesch with
  | none => .error .typeError
  | some r =>
    .ok [ s!"  Word Count: {pyShowOptNat metrics.word_count}",
          s!"  Flesch Reading Ease: {r} (Higher is easier to read)",
          s!"  Grammar & Spelling Issues Found: {pyShowOptNat metrics.grammar_and_spelling_errors}" ]

/-- Lines 225-255 of the source, `print_report`: returns the printed lines
or the first raised exception. `overall_score` and `max_possible_score`
are read by direct indexing (line 236) and raise `KeyError` when absent;
`summary_feedback`, `criteria_breakdown` and `objective_metrics` are read
with `.get` defaults. -/
def print_report (grade_report : GradeReport) : Except PyError (List String) :=
  match grade_report.overall_score with
  | none => .error (.keyError "overall_score")
  | some overall =>
    match grade_report.max_possible_score with
    | none => .error (.keyError "max_possible_score")
    | some maxPossible =>
      let summary : String :=
        match grade_report.summary_feedback with
        | none => "N/A"
        | some none => "None"
        | some (some s) => s
      match breakdownItems grade_report with
      | .error e => .error e
      | .ok items =>
        match renderItems items with
        | .error e => .error e
        | .ok itemLines =>
          let metrics := grade_report.objective_metrics.getD
            { word_count := none, readability_score_flesch := none
              grammar_and_spelling_errors := none }
          match renderMetrics metrics with
          | .error e => .error e
          | .ok metricLines =>
            .ok ([ "AI GRADING REPORT",
                   s!"FINAL SCORE: {overall} / {maxPossible}",
                   "--- Overall Summary ---", summary,
                   "--- Detailed Breakdown by Criterion ---" ]
                 ++ itemLines
                 ++ ["--- Objective Metrics ---"]
                 ++ metricLines)

/-- Lines 268-291 of the source: the hardcoded sample rubric
`GRADING_RUBRIC` with max scores 40, 30, 20 and 10. -/
def GRADING_RUBRIC : Rubric :=
  { criteria := some
      [ { criterion := some "Argument and Analysis"
          max_score := some 40
          description := some "Evaluates the clarity, depth, and coherence of the argument. Assesses discussion of both advantages and disadvantages." },
        { criterion := some "Use of Evidence"
          max_score := some 30
          description := some "Checks if the student provided specific, relevant examples for both advantages and disadvantages as required." },
        { criterion := some "Structure and Organization"
          max_score := some 20
          description := some "Assesses the logical flow of the essay, including introduction, body paragraphs, and conclusion." },
        { criterion := some "Clarity and Mechanics"
          max_score := some 10
          description := some "Evaluates grammar, spelling, punctuation, and overall readability. Adherence to word count." } ] }

/-- The mocked model response of the end-to-end scenario in section 8 of
the spec: scores 35, 25, 18 and 9 against the sample rubric. -/
def mockedEvaluation : Evaluation :=
  { summary_feedback := some "A solid essay with clear arguments."
    criteria_breakdown := some
      [ { criterion := some "Argument and Analysis", score := some 35
          max_score := some 40, feedback := some "Strong discussion." },
        { criterion := some "Use of Evidence", score := some 25
          max_score := some 30, feedback := some "Good examples." },
        { criterion := some "Structure and Organization", score := some 18
          max_score := some 20, feedback := some "Well organized." },
        { criterion := some "Clarity and Mechanics", score := some 9
          max_score := some 10, feedback := some "Minor issues." } ] }

/-- A concrete metrics dict, as built by the metrics pass on an empty
text with no grammar tool. -/
def sampleMetrics : Metrics :=
  check_objective_metrics none (fun _ => 0) []

/-- A breakdown entry whose score exceeds its maximum: possible model
output, since the source validates nothing. -/
def overScoredEntry : CriterionEntry :=
  { criterion := some "Argument and Analysis", score := some 50
    max_score := some 40, feedback := some "Too generous." }

/-- A model evaluation carrying the over-scored entry. -/
def overScoredEvaluation : Evaluation :=
  { summary_feedback := some "Generous read."
    criteria_breakdown := some [overScoredEntry] }

/-- A breakdown entry missing its `score` key. -/
def scorelessEntry : CriterionEntry :=
  { criterion := some "Use of Evidence", score := none
    max_score := some 30, feedback := some "No score given." }

/-- A report compiled from a model evaluation whose single breakdown entry
misses the `score` key. -/
def scorelessReport : GradeReport :=
  compile_report sampleMetrics GRADING_RUBRIC
    { summary_feedback := some "ok", criteria_breakdown := some [scorelessEntry] }

/-- An entry of the criteria breakdown missing at least one of the four
keys that the print loop reads by direct indexing. -/
def entryIncomplete (item : CriterionEntry) : Prop :=
  item.criterion = none ∨ item.score = none ∨ item.max_score = none
    ∨ item.feedback = none

instance (item : CriterionEntry) : Decidable (entryIncomplete item) := by
  unfold entryIncomplete
  infer_instance

/-- Claim C1. The claim says: when the transport succeeds and returns
valid JSON, `_evaluate_with_llm` returns the parsed object, and the
request is made with low temperature and JSON-object mode. The code
cannot do this: line 145 reads `self.client` (never set by `__init__`,
which also sets no `model` attribute, and `system_prompt` at line 150 is
an undefined name), so the statement after the transport call raises
`AttributeError` on every execution; the handler at line 170 then returns
the degraded dict, and the only request actually issued, the
`agent.generate_response` call at line 115, carries no temperature or
response-format argument. This theorem records the behavior: a successful
transport with any body still yields the degraded dict, whose
`summary_feedback` is the error sentinel rather than model output. -/
theorem c1_success_still_degraded :
    ∀ (body assignment : String) (rubric : Rubric) (paper : List Char),
      evaluate_with_llm (Transport.ok body) assignment rubric paper
          = degradedEvaluation
        ∧ (evaluate_with_llm (Transport.ok body) assignment rubric paper).summary_feedback
          = some "Error: Could not get evaluation from the AI model." := by
  intro body assignment rubric paper
  exact ⟨rfl, rfl⟩

/-- Claim C2: for every rubric and every model evaluation (however
malformed, empty, or of a different length), the `max_possible_score` of
the compiled report is the sum of `max_score` over the rubric criteria,
independent of the model output; the same holds of the full `grade_paper`
pipeline for every transport outcome. -/
theorem c2_max_possible_from_rubric :
    ∀ (metrics : Metrics) (rubric : Rubric) (e e2 : Evaluation)
      (lang_tool : Option (List Char → Nat)) (flesch : List Char → Int)
      (transport : Transport) (assignment : String) (paper : List Char),
      (compile_report metrics rubric e).max_possible_score
          = some (rubricMaxSum rubric)
        ∧ (compile_report metrics rubric e).max_possible_score
          = (compile_report metrics rubric e2).max_possible_score
        ∧ (grade_paper lang_tool flesch transport assignment rubric
            paper).max_possible_score = some (rubricMaxSum rubric) := by
  intro metrics rubric e e2 lang_tool flesch transport assignment paper
  exact ⟨rfl, rfl, rfl⟩

/-- Claim C3: when the model evaluation is the degraded result (empty
breakdown), the compiled report has `overall_score` 0 and `print_report`
renders it without raising. -/
theorem c3_degraded_overall_zero_and_renders :
    ∀ (lang_tool : Option (List Char → Nat)) (flesch : List Char → Int)
      (rubric : Rubric) (paper : List Char),
      (compile_report (check_objective_metrics lang_tool flesch paper)
          rubric degradedEvaluation).overall_score = some 0
        ∧ ∃ printed,
            print_report (compile_report
                (check_objective_metrics lang_tool flesch paper)
                rubric degradedEvaluation) = .ok printed := by
  intro lang_tool flesch rubric paper
  exact ⟨rfl, _, rfl⟩

/-- Claim C4: whenever the model call fails (the transport raises), the
evaluation is the degraded dict whose `summary_feedback` is exactly the
error sentinel and whose `criteria_breakdown` is the empty list; the
embedded function is total, so no exception escapes. -/
theorem c4_failure_degrades :
    ∀ (msg assignment : String) (rubric : Rubric) (paper : List Char),
      evaluate_with_llm (Transport.err msg) assignment rubric paper
          = degradedEvaluation
        ∧ degradedEvaluation.summary_feedback
          = some "Error: Could not get evaluation from the AI model."
        ∧ degradedEvaluation.criteria_breakdown = some [] := by
  intro msg assignment rubric paper
  exact ⟨rfl, rfl, rfl⟩

/-- Claim C5: the `overall_score` of the compiled report is the sum of
`score` over the entries of the evaluation breakdown, a missing `score`
key contributing 0 (and a missing breakdown key summing over nothing). -/
theorem c5_overall_is_breakdown_sum :
    ∀ (metrics : Metrics) (rubric : Rubric) (e : Evaluation),
      (compile_report metrics rubric e).overall_score
        = some (breakdownScoreSum (e.criteria_breakdown.getD [])) := by
  intro metrics rubric e
  rfl

/-- Claim C6 counterexample: the claim says every entry of a compiled
report satisfies 0 ≤ score ≤ max_score because the implementation
validates this defensively. It does not: a model evaluation awarding 50
out of 40 passes through `grade_paper` aggregation unchanged, and the
resulting report contains an entry with score above max_score. -/
theorem c6_counterexample :
    (compile_report sampleMetrics GRADING_RUBRIC
        overScoredEvaluation).criteria_breakdown
        = some (some [overScoredEntry])
      ∧ ¬ (overScoredEntry.score.getD 0 ≤ overScoredEntry.max_score.getD 0) := by
  exact ⟨rfl, by decide⟩

/-- Claim C6 as amended: the compile step copies the breakdown into the
report unchanged and performs no validation, so the invariant
0 ≤ score ≤ max_score holds of the report exactly when the model output
already satisfies it. -/
theorem c6_breakdown_passthrough :
    ∀ (metrics : Metrics) (rubric : Rubric) (e : Evaluation),
      (compile_report metrics rubric e).criteria_breakdown
        = some e.criteria_breakdown := by
  intro metrics rubric e
  rfl

/-- Claim C7: for the sample rubric (max scores 40/30/20/10) and the
mocked model response awarding 35/25/18/9, the compiled report has
`overall_score` 87 and `max_possible_score` 100, whatever the metrics. -/
theorem c7_sample_scenario :
    ∀ (metrics : Metrics),
      (compile_report metrics GRADING_RUBRIC mockedEvaluation).overall_score
          = some 87
        ∧ (compile_report metrics GRADING_RUBRIC
            mockedEvaluation).max_possible_score = some 100 := by
  intro metrics
  exact ⟨rfl, rfl⟩

/-- Claim C8: when the grammar tool fails to initialize, `__init__` stores
`None` instead of raising (the failure is only logged), and the grammar
error metric is 0 for every input text. -/
theorem c8_grammar_unavailable_zero :
    ∀ (msg : String) (flesch : List Char → Int) (text : List Char),
      init_lang_tool (.error msg) = none
        ∧ (check_objective_metrics (init_lang_tool (.error msg)) flesch
            text).grammar_and_spelling_errors = some 0 := by
  intro msg flesch text
  exact ⟨rfl, rfl⟩

/-- Accumulator invariant of the Python split: the number of tokens that
`pySplitGo` produces is the number of maximal non-whitespace runs still to
come, plus one for the token in progress. -/
theorem pySplitGo_length (l : List Char) :
    ∀ acc : List Char, (pySplitGo l acc).length
      = countTokensFrom (!acc.isEmpty) l + (if acc.isEmpty then 0 else 1) := by
  induction l with
  | nil =>
    intro acc
    cases acc <;> simp [pySplitGo, countTokensFrom]
  | cons c cs ih =>
    intro acc
    by_cases hw : isWs c
    · cases acc with
      | nil => simp [pySplitGo, countTokensFrom, hw, ih]
      | cons a as =>
        simp [pySplitGo, countTokensFrom, hw, ih]
    · cases acc with
      | nil =>
        simp [pySplitGo, countTokensFrom, hw, ih]
        omega
      | cons a as =>
        simp [pySplitGo, countTokensFrom, hw, ih]

/-- The length of the Python split equals the spec-side count of
whitespace-delimited tokens. -/
theorem pySplit_length (text : List Char) :
    (pySplit text).length = countTokens text := by
  simpa [pySplit, countTokens] using pySplitGo_length text []

/-- Claim C9: the word count metric is the number of whitespace-delimited
tokens of the input text, and in particular the text "a b  c" (with a
double space) yields 3. -/
theorem c9_word_count :
    (∀ (lang_tool : Option (List Char → Nat)) (flesch : List Char → Int)
        (text : List Char),
        (check_objective_metrics lang_tool flesch text).word_count
          = some (countTokens text))
      ∧ (check_objective_metrics none (fun _ => 0)
          ("a b  c".toList)).word_count = some 3 := by
  constructor
  · intro lang_tool flesch text
    simp [check_objective_metrics, pySplit_length]
  · rfl

/-- The first absent key of an incomplete entry raises KeyError in the
breakdown loop body. -/
theorem renderItem_error_of_incomplete (item : CriterionEntry)
    (h : entryIncomplete item) :
    ∃ k, renderItem item = Except.error (PyError.keyError k) := by
  rcases item with ⟨c, s, m, f⟩
  cases c with
  | none => exact ⟨"criterion", rfl⟩
  | some cv =>
    cases s with
    | none => exact ⟨"score", rfl⟩
    | some sv =>
      cases m with
      | none => exact ⟨"max_score", rfl⟩
      | some mv =>
        cases f with
        | none => exact ⟨"feedback", rfl⟩
        | some fv => simp [entryIncomplete] at h

/-- The loop body raises nothing but KeyError. -/
theorem renderItem_error_keyError (item : CriterionEntry) (e : PyError)
    (h : renderItem item = Except.error e) :
    ∃ k, e = PyError.keyError k := by
  rcases item with ⟨c, s, m, f⟩
  cases c with
  | none => injection h with h1; exact ⟨"criterion", h1.symm⟩
  | some cv =>
    cases s with
    | none => injection h with h1; exact ⟨"score", h1.symm⟩
    | some sv =>
      cases m with
      | none => injection h with h1; exact ⟨"max_score", h1.symm⟩
      | some mv =>
        cases f with
        | none => injection h with h1; exact ⟨"feedback", h1.symm⟩
        | some fv => cases h

/-- A loop body that completes read all four keys. -/
theorem renderItem_complete_of_ok (item : CriterionEntry)
    (printed : List String)
    (hok : renderItem item = Except.ok printed) :
    ¬ entryIncomplete item := by
  rcases item with ⟨c, s, m, f⟩
  cases c with
  | none => cases hok
  | some cv =>
    cases s with
    | none => cases hok
    | some sv =>
      cases m with
      | none => cases hok
      | some mv =>
        cases f with
        | none => cases hok
        | some fv => simp [entryIncomplete]

/-- A breakdown list containing an incomplete entry makes the loop raise
KeyError. -/
theorem renderItems_error_of_incomplete :
    ∀ items : List CriterionEntry,
      (∃ item ∈ items, entryIncomplete item) →
      ∃ k, renderItems items = Except.error (PyError.keyError k) := by
  intro items
  induction items with
  | nil =>
    rintro ⟨item, hmem, _⟩
    cases hmem
  | cons it rest ih =>
    rintro ⟨item, hmem, hinc⟩
    rcases List.mem_cons.mp hmem with heq | hmem2
    · subst heq
      obtain ⟨k, hk⟩ := renderItem_error_of_incomplete item hinc
      exact ⟨k, by simp [renderItems, hk]⟩
    · cases hre : renderItem it with
      | error e =>
        obtain ⟨k, hk⟩ := renderItem_error_keyError it e hre
        subst hk
        exact ⟨k, by simp [renderItems, hre]⟩
      | ok itemLines =>
        obtain ⟨k, hk⟩ := ih ⟨item, hmem2, hinc⟩
        exact ⟨k, by simp [renderItems, hre, hk]⟩

/-- A loop that completes without raising read all four keys of every
entry. -/
theorem renderItems_complete_of_ok :
    ∀ (items : List CriterionEntry) (printed : List String),
      renderItems items = Except.ok printed →
      ∀ item ∈ items, ¬ entryIncomplete item := by
  intro items
  induction items with
  | nil =>
    intro printed _ item hmem
    cases hmem
  | cons it rest ih =>
    intro printed hok item hmem
    cases hre : renderItem it with
    | error e =>
      simp [renderItems, hre] at hok
    | ok itemLines =>
      cases hrr : renderItems rest with
      | error e =>
        simp [renderItems, hre, hrr] at hok
      | ok more =>
        rcases List.mem_cons.mp hmem with heq | hmem2
        · subst heq
          exact renderItem_complete_of_ok item itemLines hre
        · exact ih more hrr item hmem2

/-- Claim C10: the breakdown entries are read by direct indexing (unlike
the rest of the report, read with defaults), so a report whose breakdown
holds an entry missing any of the four keys makes print_report raise
KeyError, and a print that completes without raising proves every entry
carried all four keys. -/
theorem c10_breakdown_entries_need_all_keys :
    ∀ (r : GradeReport) (items : List CriterionEntry),
      r.criteria_breakdown = some (some items) →
      ((∃ item ∈ items, entryIncomplete item) →
          ∃ k, print_report r = Except.error (PyError.keyError k))
        ∧ ((∃ printed, print_report r = Except.ok printed) →
          ∀ item ∈ items, ¬ entryIncomplete item) := by
  rintro ⟨os, ms, sf, cb, om⟩ items hcb
  have hcb2 : cb = some (some items) := hcb
  subst hcb2
  constructor
  · intro hex
    obtain ⟨k, hk⟩ := renderItems_error_of_incomplete items hex
    cases os with
    | none => exact ⟨"overall_score", rfl⟩
    | some osv =>
      cases ms with
      | none => exact ⟨"max_possible_score", rfl⟩
      | some msv =>
        exact ⟨k, by simp [print_report, breakdownItems, hk]⟩
  · rintro ⟨printed, hok⟩ item hmem
    cases os with
    | none => cases hok
    | some osv =>
      cases ms with
      | none => cases hok
      | some msv =>
        cases hri : renderItems items with
        | error e =>
          simp [print_report, breakdownItems, hri] at hok
        | ok itemLines =>
          exact renderItems_complete_of_ok items itemLines hri item hmem

/-- Witness for claim C10: on the concrete report compiled from a model
evaluation whose single breakdown entry misses the score key, the print
raises KeyError. -/
theorem c10_witness :
    ∃ k, print_report scorelessReport = Except.error (PyError.keyError k) :=
  (c10_breakdown_entries_need_all_keys scorelessReport [scorelessEntry] rfl).1
    ⟨scorelessEntry, by simp, by decide⟩

end PaperGrade
